import Mathlib

/-!
Shallow embedding of the train-schedule-bot repository (src/scheduler.py,
src/national_rail_api.py, src/bot.py) for checking the natural-language
specification against the code.

The scheduler's reconciliation pass (`resync_all_user_schedules`), the
trigger derivation it performs inline, the notification dispatcher
(`send_schedule_notification` / `fetch_train_schedule`), the startup logic
of `main`, and the bot's `set_home` / `set_office` command validation are
translated into executable Lean definitions.  APScheduler's job store is
modelled as an association list keyed by the job id string; `add_job` with
`replace_existing=True` replaces the entry for that id, `remove_job`
deletes it.  Python string truthiness, `str.startswith`, `str.upper`,
`str.isalpha`, `str.lower` and `"sep".join` are modelled on the character
sequence (ASCII semantics).
-/

/-! ## Python string primitives -/

/-- Python truthiness of an optional string value: `None` and `""` are falsy. -/
def pyTruthy : Option String → Bool
  | none => false
  | some s => s != ""

/-- Python `str.startswith(pre)`: `pre` is a prefix of the character sequence. -/
def pyStartswith (s pre : String) : Bool :=
  pre.toList.isPrefixOf s.toList

/-- Python `str.lower()` (ASCII model). -/
def pyLower (s : String) : String := s.map Char.toLower

/-- Python `str.upper()` on a character sequence (ASCII model). -/
def pyUpper (s : List Char) : List Char := s.map Char.toUpper

/-- Python `str.isalpha()` on a character sequence: nonempty and all alphabetic
(ASCII model). -/
def pyIsalpha (s : List Char) : Bool := !s.isEmpty && s.all Char.isAlpha

/-- How an optional string renders inside a Python f-string: `None` prints as
`"None"`. -/
def pyShow : Option String → String
  | none => "None"
  | some s => s

/-- Python `sep.join(xs)`. -/
def joinSep (sep : String) : List String → String
  | [] => ""
  | [x] => x
  | x :: y :: xs => x ++ sep ++ joinSep sep (y :: xs)

/-! ## Wall-clock time-of-day and `datetime.strptime(s, "%I:%M %p")` -/

/-- A `datetime.time` value as used by the scheduler: hour (0-23) and
minute (0-59). -/
structure TimeOfDay where
  hour : Nat
  minute : Nat
deriving DecidableEq, Repr

/-- `(datetime.combine(datetime.today(), slot_time) + timedelta(minutes=30)).time()`:
thirty minutes later on the clock, wrapping at the day boundary
(scheduler.py line 105). -/
def plusThirtyMinutes (t : TimeOfDay) : TimeOfDay :=
  let total := (t.hour * 60 + t.minute + 30) % 1440
  ⟨total / 60, total % 60⟩

/-- Numeric value of a decimal digit character. -/
def digitVal (c : Char) : Nat := c.toNat - 48

/-- The `%p` directive: the remaining input must be exactly `AM` or `PM`,
case-insensitively (`true` = PM).  `strptime` rejects unconverted trailing
data, so nothing may follow. -/
def parseMeridiem : List Char → Option Bool
  | [a, m] =>
    if (a = 'A' ∨ a = 'a') ∧ (m = 'M' ∨ m = 'm') then some false
    else if (a = 'P' ∨ a = 'p') ∧ (m = 'M' ∨ m = 'm') then some true
    else none
  | _ => none

/-- A literal space in a `strptime` format matches one or more whitespace
characters; the meridiem follows. -/
def parseSpacesMeridiem : List Char → Option Bool
  | c :: rest =>
    if c.isWhitespace then parseMeridiem (rest.dropWhile Char.isWhitespace)
    else none
  | [] => none

/-- The `%M` directive (regex `[0-5]\d|\d`) followed by the space and meridiem;
the two-digit alternative is tried first, backtracking to the one-digit one. -/
def parseMinuteTail (cs : List Char) : Option (Nat × Bool) :=
  (match cs with
   | d1 :: d2 :: rest =>
     if ('0' ≤ d1 ∧ d1 ≤ '5') ∧ d2.isDigit then
       (parseSpacesMeridiem rest).map (fun pm => (digitVal d1 * 10 + digitVal d2, pm))
     else none
   | _ => none)
  <|>
  (match cs with
   | d :: rest =>
     if d.isDigit then (parseSpacesMeridiem rest).map (fun pm => (digitVal d, pm))
     else none
   | _ => none)

/-- The `%I` directive (regex `1[0-2]|0[1-9]|[1-9]`) followed by the literal
`:` and the rest of the format, with the regex engine's backtracking over the
alternatives. -/
def parseHourTail (cs : List Char) : Option (Nat × Nat × Bool) :=
  (match cs with
   | '1' :: d :: ':' :: rest =>
     if '0' ≤ d ∧ d ≤ '2' then
       (parseMinuteTail rest).map (fun p => (10 + digitVal d, p.1, p.2))
     else none
   | _ => none)
  <|>
  (match cs with
   | '0' :: d :: ':' :: rest =>
     if '1' ≤ d ∧ d ≤ '9' then
       (parseMinuteTail rest).map (fun p => (digitVal d, p.1, p.2))
     else none
   | _ => none)
  <|>
  (match cs with
   | d :: ':' :: rest =>
     if '1' ≤ d ∧ d ≤ '9' then
       (parseMinuteTail rest).map (fun p => (digitVal d, p.1, p.2))
     else none
   | _ => none)

/-- `datetime.strptime(slot_time_str, "%I:%M %p").time()` (scheduler.py
line 90): `none` models the `ValueError` raised on a malformed string.
The 12-hour value is converted as CPython does: `hour % 12`, plus 12 for PM. -/
def parseTime12 (s : String) : Option TimeOfDay :=
  (parseHourTail s.toList).map (fun p => ⟨p.1 % 12 + (if p.2.2 then 12 else 0), p.2.1⟩)

/-! ## APScheduler job store model -/

/-- One cron job as installed by `scheduler.add_job(send_schedule_notification,
'cron', day_of_week='mon-fri', hour=.., minute=.., args=[bot, chat_id,
origin_crs, dest_crs], id=.., replace_existing=True)` (scheduler.py
lines 93-102 and 109-118). -/
structure JobSpec where
  day_of_week : String
  hour : Nat
  minute : Nat
  chat_id : Nat
  origin_crs : String
  dest_crs : String
deriving DecidableEq, Repr

/-- The scheduler's live job set, keyed by the job id string. -/
abbrev Jobs := List (String × JobSpec)

/-- `scheduler.add_job(..., id=jobId, replace_existing=True)`: installs the job,
replacing any existing job with that id. -/
def addJobReplace (jobs : Jobs) (id : String) (spec : JobSpec) : Jobs :=
  jobs.filter (fun job => job.1 != id) ++ [(id, spec)]

/-- Lookup of the job installed under an id (the job store as a partial map). -/
def lookupJob (jobs : Jobs) (id : String) : Option JobSpec :=
  (jobs.find? (fun job => job.1 == id)).map Prod.snd

/-! ## Registry rows and per-user configuration -/

/-- The fields `resync_all_user_schedules` reads out of a user's JSON record
via `user_data.get(...)` (scheduler.py lines 78-79 and 88); `none` models an
absent key.  Unrelated keys in the record are irrelevant to the scheduler and
not modelled. -/
structure UserData where
  home_crs : Option String
  office_crs : Option String
  to_slot : Option String
  from_slot : Option String
deriving DecidableEq, Repr

/-- A row's `data` column as seen by `json.loads` (scheduler.py line 77):
either it raises `json.JSONDecodeError`, or it yields a record from which the
four fields above are read. -/
inductive RawRecord where
  | malformed : RawRecord
  | record : UserData → RawRecord
deriving DecidableEq, Repr

/-- The outcome of the `SELECT user_id, data FROM user_data` scan inside
`get_all_user_data` (scheduler.py lines 46-53): the rows, or an
`sqlite3.Error`. -/
inductive ScanResult where
  | ok : List (Nat × RawRecord) → ScanResult
  | dbError : ScanResult

/-- `get_all_user_data` (scheduler.py lines 43-55): returns the fetched rows;
a database error is caught, logged and turned into the empty list. -/
def get_all_user_data : ScanResult → List (Nat × RawRecord)
  | ScanResult.ok rows => rows
  | ScanResult.dbError => []

/-! ## The reconciliation pass -/

/-- The mutable state threaded through the scan loop of
`resync_all_user_schedules`: the scheduler's job store and the
`current_job_ids` set of ids added in this pass (scheduler.py line 73). -/
structure PassState where
  jobs : Jobs
  current_job_ids : List String
deriving Repr

/-- `f"{user_id}_{slot_type}_{n}"` (scheduler.py lines 92 and 108). -/
def jobId (user_id : Nat) (slot_type : String) (n : Nat) : String :=
  toString user_id ++ "_" ++ slot_type ++ "_" ++ toString n

/-- Scheduler.py lines 88-120: one `(slot_type, origin_crs, dest_crs)` entry of
the inner loop.  If the slot's time string is truthy it is parsed; on success
the primary job and the job thirty minutes later are installed and their ids
recorded.  The returned flag is `false` when `strptime` raises `ValueError`
(caught by the per-user `except`, which skips the rest of that user). -/
def processSlot (user_id chat_id : Nat) (slot_type origin_crs dest_crs : String)
    (slot_val : Option String) (st : PassState) : PassState × Bool :=
  if pyTruthy slot_val then
    match parseTime12 (slot_val.getD "") with
    | none => (st, false)
    | some slot_time =>
      let id1 := jobId user_id slot_type 1
      let spec1 : JobSpec :=
        ⟨"mon-fri", slot_time.hour, slot_time.minute, chat_id, origin_crs, dest_crs⟩
      let st1 : PassState :=
        ⟨addJobReplace st.jobs id1 spec1, st.current_job_ids ++ [id1]⟩
      let second_notification_time := plusThirtyMinutes slot_time
      let id2 := jobId user_id slot_type 2
      let spec2 : JobSpec :=
        ⟨"mon-fri", second_notification_time.hour, second_notification_time.minute,
         chat_id, origin_crs, dest_crs⟩
      (⟨addJobReplace st1.jobs id2 spec2, st1.current_job_ids ++ [id2]⟩, true)
  else (st, true)

/-- Scheduler.py lines 75-125: the body of the per-user scan loop, including
its `try`/`except`.  A `json.JSONDecodeError` leaves the state unchanged; a
time-parse `ValueError` keeps whatever jobs were installed for the user before
it was raised and skips the rest of that user; a user without both stations is
skipped.  `chat_id` is taken equal to `user_id` (line 85); `to_slot` runs home
to office and `from_slot` office to home (line 87). -/
def processUser (st : PassState) (row : Nat × RawRecord) : PassState :=
  match row.2 with
  | RawRecord.malformed => st
  | RawRecord.record u =>
    if pyTruthy u.home_crs && pyTruthy u.office_crs then
      let res1 := processSlot row.1 row.1 "to_slot"
        (u.home_crs.getD "") (u.office_crs.getD "") u.to_slot st
      if res1.2 then
        (processSlot row.1 row.1 "from_slot"
          (u.office_crs.getD "") (u.home_crs.getD "") u.from_slot res1.1).1
      else res1.1
    else st

/-- The keep-condition of the stale-removal loop: a job survives unless its id
starts with `f"{user_id}_"` for the *last* scanned user id and is not among
the ids added in this pass (scheduler.py line 129). -/
def staleKeep (last_user_id : Nat) (current_job_ids : List String) (id : String) : Bool :=
  !(pyStartswith id (toString last_user_id ++ "_") && !(current_job_ids.contains id))

/-- Scheduler.py lines 128-131: the removal loop over `scheduler.get_jobs()`.
Note the scope bug the spec flags: `user_id` here is the leftover value of the
scan loop's variable, i.e. the id of the last row scanned. -/
def removeStaleJobs (jobs : Jobs) (last_user_id : Nat) (current_job_ids : List String) : Jobs :=
  jobs.filter (fun job => staleKeep last_user_id current_job_ids job.1)

/-- `resync_all_user_schedules` (scheduler.py lines 58-131) as a function of
the scan outcome and the scheduler's current job store.  An empty row list
(including the one produced by a caught database error) returns early,
leaving the job store untouched. -/
def resync_all_user_schedules (scan : ScanResult) (jobs : Jobs) : Jobs :=
  let users := get_all_user_data scan
  if users.isEmpty then jobs
  else
    let final := users.foldl processUser ⟨jobs, []⟩
    let last_user_id := ((users.getLast?).map Prod.fst).getD 0
    removeStaleJobs final.jobs last_user_id final.current_job_ids

/-! ## Notification dispatcher (national_rail_api.py and scheduler.py 27-40) -/

/-- One element of the response's `trainServices` list as read by
`fetch_train_schedule` via `service.get(...)` (national_rail_api.py
lines 31-35). -/
structure TrainService where
  std : Option String
  etd : Option String
  platform : Option String
  operator_name : Option String
  isCancelled : Option Bool
deriving Repr

/-- The observable outcome of `requests.get` + `raise_for_status` + `.json()`
inside `fetch_train_schedule` (national_rail_api.py lines 22-24): a parsed
body (`none` models a falsy `data` or an absent `trainServices` key), an
`HTTPError` with its status code, a `RequestException`, or any other
exception. -/
inductive LookupOutcome where
  | success : Option (List TrainService) → LookupOutcome
  | httpError : Nat → LookupOutcome
  | requestError : LookupOutcome
  | otherError : LookupOutcome

/-- National_rail_api.py lines 37-44: the status text for one service. -/
def formatService (service : TrainService) : String :=
  let std := service.std
  let etd := service.etd
  let platform := (service.platform).getD "TBA"
  let is_cancelled := (service.isCancelled).getD false
  let status0 := pyShow std ++ " -> " ++ pyShow etd
  let status1 :=
    if pyTruthy etd && (pyLower (etd.getD "") != "on time") then
      pyShow std ++ " (exp. " ++ pyShow etd ++ ")"
    else status0
  let status := if is_cancelled then pyShow std ++ " - CANCELLED" else status1
  "- " ++ status ++ ", Plat: " ++ platform ++ ", Op: " ++ pyShow service.operator_name

/-- `fetch_train_schedule` (national_rail_api.py lines 4-56) as a function of
the request outcome.  Every caught exception is converted into a descriptive
string; `user_agent_str` only travels in the request headers. -/
def fetch_train_schedule (api_token user_agent_str origin destination : String)
    (outcome : LookupOutcome) : String :=
  if api_token = "" then "National Rail API token is missing."
  else
    match outcome with
    | LookupOutcome.success body =>
      let services := body.getD []
      if services.isEmpty then
        "No direct services found from " ++ origin ++ " to " ++ destination ++ " at this time."
      else
        let schedule_lines :=
          ("Trains from " ++ origin ++ " to " ++ destination ++ ":\n")
            :: services.map formatService
        joinSep "\n" schedule_lines
    | LookupOutcome.httpError status_code =>
      if status_code = 401 then "Authentication failed. Please check your API token."
      else "Sorry, there was a problem reaching the schedule service (HTTP "
            ++ toString status_code ++ ")."
    | LookupOutcome.requestError => "Sorry, I couldn't connect to the train schedule service."
    | LookupOutcome.otherError => "An unexpected error occurred while fetching the schedule."

/-- `send_schedule_notification` (scheduler.py lines 27-40): the text of the
message delivered to `chat_id`.  With no configured module-global token a
fixed error text is sent; otherwise the text returned by
`fetch_train_schedule` is sent (that function converts all of its failures to
strings itself, so the `except` branch sending `f"Error fetching schedule: {e}"`
corresponds to no lookup outcome). -/
def send_schedule_notification (national_rail_api_token : Option String)
    (user_agent origin_crs destination_crs : String) (outcome : LookupOutcome) : String :=
  if !(pyTruthy national_rail_api_token) then
    "Error: National Rail API token is not configured for the scheduler."
  else
    fetch_train_schedule (national_rail_api_token.getD "") user_agent
      origin_crs destination_crs outcome

/-! ## Startup (`main`, scheduler.py lines 134-163) -/

/-- What `main` does before entering its keep-alive loop, as a function of the
two credentials: return early with a logged error, or build the bot, run the
initial resync, install the periodic resync job and call `scheduler.start()`.
The flag records whether the missing National-Rail-token error was logged on
the way (line 142). -/
inductive StartupResult where
  | refused : String → StartupResult
  | started : Bool → StartupResult
deriving DecidableEq, Repr

/-- Scheduler.py lines 136-163: a missing bot token aborts `main`; a missing
National Rail token is only logged, and the scheduler is started anyway. -/
def mainStartup (telegram_bot_token national_rail_api_token : Option String) : StartupResult :=
  if !(pyTruthy telegram_bot_token) then
    StartupResult.refused "TELEGRAM_BOT_TOKEN not found in environment variables. Exiting."
  else
    StartupResult.started (!(pyTruthy national_rail_api_token))

/-! ## Bot commands (bot.py lines 70-92) -/

/-- `set_home` (bot.py lines 70-80): the reply text and the stored
`user_data['home_crs']` after the command, given `context.args` and the value
stored before.  An absent argument raises `IndexError`, a failed validation of
the uppercased argument raises `ValueError`; both are answered with the usage
text and leave the stored value untouched. -/
def set_home (args : List (List Char)) (stored_home_crs : Option (List Char)) :
    String × Option (List Char) :=
  match args with
  | [] => ("Usage: /set_home <3_LETTER_CRS_CODE>", stored_home_crs)
  | a :: _ =>
    let crs_code := pyUpper a
    if crs_code.length != 3 || !(pyIsalpha crs_code) then
      ("Usage: /set_home <3_LETTER_CRS_CODE>", stored_home_crs)
    else
      ("Home station set to " ++ String.mk crs_code, some crs_code)

/-- `set_office` (bot.py lines 82-92): same validation for
`user_data['office_crs']`. -/
def set_office (args : List (List Char)) (stored_office_crs : Option (List Char)) :
    String × Option (List Char) :=
  match args with
  | [] => ("Usage: /set_office <3_LETTER_CRS_CODE>", stored_office_crs)
  | a :: _ =>
    let crs_code := pyUpper a
    if crs_code.length != 3 || !(pyIsalpha crs_code) then
      ("Usage: /set_office <3_LETTER_CRS_CODE>", stored_office_crs)
    else
      ("Office station set to " ++ String.mk crs_code, some crs_code)

/-! ## Derived views of the pass, used in the proofs

The scan loop installs a sequence of `(job id, job spec)` upserts that is a
function of the scanned rows alone (neither the job specs nor the recorded ids
depend on the job store).  `slotPairs`, `userPairs` and `desiredPairs` name
that sequence; the lemmas below prove that the loop body equals replaying it
over the job store. -/

/-- The `(id, spec)` pairs that `processSlot` installs, and whether processing
of the user continues afterwards. -/
def slotPairs (user_id chat_id : Nat) (slot_type origin_crs dest_crs : String)
    (slot_val : Option String) : List (String × JobSpec) × Bool :=
  if pyTruthy slot_val then
    match parseTime12 (slot_val.getD "") with
    | none => ([], false)
    | some slot_time =>
      ([(jobId user_id slot_type 1,
          ⟨"mon-fri", slot_time.hour, slot_time.minute, chat_id, origin_crs, dest_crs⟩),
        (jobId user_id slot_type 2,
          ⟨"mon-fri", (plusThirtyMinutes slot_time).hour, (plusThirtyMinutes slot_time).minute,
           chat_id, origin_crs, dest_crs⟩)], true)
  else ([], true)

/-- The `(id, spec)` pairs that `processUser` installs for one row. -/
def userPairs (row : Nat × RawRecord) : List (String × JobSpec) :=
  match row.2 with
  | RawRecord.malformed => []
  | RawRecord.record u =>
    if pyTruthy u.home_crs && pyTruthy u.office_crs then
      let res1 := slotPairs row.1 row.1 "to_slot"
        (u.home_crs.getD "") (u.office_crs.getD "") u.to_slot
      if res1.2 then
        res1.1 ++ (slotPairs row.1 row.1 "from_slot"
          (u.office_crs.getD "") (u.home_crs.getD "") u.from_slot).1
      else res1.1
    else []

/-- The full upsert sequence of one pass over the given rows. -/
def desiredPairs (rows : List (Nat × RawRecord)) : List (String × JobSpec) :=
  (rows.map userPairs).flatten

/-- Replaying a sequence of upserts over a job store. -/
def upsertList (ps : List (String × JobSpec)) (jobs : Jobs) : Jobs :=
  ps.foldl (fun j p => addJobReplace j p.1 p.2) jobs

/-- The last binding of a key in an upsert sequence (the one that wins). -/
def lastAssoc : List (String × JobSpec) → String → Option JobSpec
  | [], _ => none
  | p :: ps, k =>
    match lastAssoc ps k with
    | some v => some v
    | none => if p.1 = k then some p.2 else none

/-! ## Lemmas about the job store -/

/-- Lookup after an upsert: the upserted id maps to the new spec, every other
id is untouched. -/
theorem lookupJob_addJobReplace (jobs : Jobs) (id k : String) (spec : JobSpec) :
    lookupJob (addJobReplace jobs id spec) k =
      if k = id then some spec else lookupJob jobs k := by
  induction jobs with
  | nil =>
    by_cases h : k = id
    · subst h
      simp [lookupJob, addJobReplace, List.find?]
    · have h' : (id == k) = false := beq_eq_false_iff_ne.mpr (fun he => h he.symm)
      simp [lookupJob, addJobReplace, List.find?, h, h']
  | cons a l ih =>
    by_cases hai : a.1 = id
    · have h1 : addJobReplace (a :: l) id spec = addJobReplace l id spec := by
        simp [addJobReplace, List.filter_cons, hai]
      rw [h1, ih]
      by_cases h : k = id
      · simp [h]
      · have h2 : (a.1 == k) = false := by
          rw [hai]; exact beq_eq_false_iff_ne.mpr (fun he => h he.symm)
        simp [h, lookupJob, List.find?, h2]
    · have h1 : addJobReplace (a :: l) id spec = a :: addJobReplace l id spec := by
        simp [addJobReplace, List.filter_cons, hai]
      rw [h1]
      by_cases hak : a.1 = k
      · have hk : ¬ k = id := fun he => hai (hak.trans he)
        simp [lookupJob, List.find?, hak, hk]
      · have hb : (a.1 == k) = false := beq_eq_false_iff_ne.mpr hak
        have e1 : lookupJob (a :: addJobReplace l id spec) k
            = lookupJob (addJobReplace l id spec) k := by
          simp [lookupJob, List.find?, hb]
        have e2 : lookupJob (a :: l) k = lookupJob l k := by
          simp [lookupJob, List.find?, hb]
        rw [e1, ih, e2]

/-- Lookup commutes with filtering by a predicate on the id. -/
theorem lookupJob_filterKey (jobs : Jobs) (q : String → Bool) (k : String) :
    lookupJob (jobs.filter (fun job => q job.1)) k =
      if q k then lookupJob jobs k else none := by
  induction jobs with
  | nil => by_cases h : q k <;> simp [lookupJob, h]
  | cons a l ih =>
    by_cases hqa : q a.1
    · rw [List.filter_cons, if_pos (by simpa using hqa)]
      by_cases hak : a.1 = k
      · have hq : q k := hak ▸ hqa
        simp [lookupJob, List.find?, hak, hq]
      · have hb : (a.1 == k) = false := beq_eq_false_iff_ne.mpr hak
        have e1 : lookupJob (a :: List.filter (fun job => q job.1) l) k
            = lookupJob (List.filter (fun job => q job.1) l) k := by
          simp [lookupJob, List.find?, hb]
        have e2 : lookupJob (a :: l) k = lookupJob l k := by
          simp [lookupJob, List.find?, hb]
        rw [e1, ih, e2]
    · rw [List.filter_cons, if_neg (by simpa using hqa)]
      rw [ih]
      by_cases hak : a.1 = k
      · have hqk : ¬ q k := hak ▸ hqa
        simp [hqk]
      · have hb : (a.1 == k) = false := beq_eq_false_iff_ne.mpr hak
        have e2 : lookupJob (a :: l) k = lookupJob l k := by
          simp [lookupJob, List.find?, hb]
        rw [e2]

/-- `processSlot` replays `slotPairs` over the store and records their ids. -/
theorem processSlot_eq (user_id chat_id : Nat) (slot_type origin_crs dest_crs : String)
    (slot_val : Option String) (st : PassState) :
    processSlot user_id chat_id slot_type origin_crs dest_crs slot_val st =
      (⟨upsertList (slotPairs user_id chat_id slot_type origin_crs dest_crs slot_val).1 st.jobs,
        st.current_job_ids ++
          ((slotPairs user_id chat_id slot_type origin_crs dest_crs slot_val).1).map Prod.fst⟩,
       (slotPairs user_id chat_id slot_type origin_crs dest_crs slot_val).2) := by
  unfold processSlot slotPairs
  by_cases h : pyTruthy slot_val
  · simp only [h, if_true]
    cases hp : parseTime12 (slot_val.getD "") with
    | none => simp [upsertList]
    | some t => simp [upsertList, List.foldl, List.append_assoc]
  · simp [h, upsertList]

/-- `processUser` replays `userPairs` over the store and records their ids. -/
theorem processUser_eq (st : PassState) (row : Nat × RawRecord) :
    processUser st row =
      ⟨upsertList (userPairs row) st.jobs,
       st.current_job_ids ++ (userPairs row).map Prod.fst⟩ := by
  unfold processUser userPairs
  cases hrec : row.2 with
  | malformed => simp [upsertList]
  | record u =>
    by_cases hst : pyTruthy u.home_crs && pyTruthy u.office_crs
    · simp only [hst, if_true]
      rw [processSlot_eq]
      by_cases hok : (slotPairs row.1 row.1 "to_slot"
          (u.home_crs.getD "") (u.office_crs.getD "") u.to_slot).2
      · simp only [hok, if_true]
        rw [processSlot_eq]
        simp [upsertList, List.foldl_append, List.append_assoc]
      · simp [hok]
    · simp [hst, upsertList]

/-- One pass of the scan loop replays the whole desired upsert sequence. -/
theorem foldl_processUser (rows : List (Nat × RawRecord)) (st : PassState) :
    rows.foldl processUser st =
      ⟨upsertList (desiredPairs rows) st.jobs,
       st.current_job_ids ++ (desiredPairs rows).map Prod.fst⟩ := by
  induction rows generalizing st with
  | nil => simp [desiredPairs, upsertList]
  | cons r rs ih =>
    rw [List.foldl_cons, processUser_eq, ih]
    simp [desiredPairs, upsertList, List.foldl_append, List.append_assoc]

/-- The reconciliation pass on a nonempty row list: install the desired
sequence, then run the (last-user-scoped) stale removal over it. -/
theorem resync_eq (rows : List (Nat × RawRecord)) (jobs : Jobs) (h : rows ≠ []) :
    resync_all_user_schedules (ScanResult.ok rows) jobs =
      removeStaleJobs (upsertList (desiredPairs rows) jobs)
        (((rows.getLast?).map Prod.fst).getD 0)
        ((desiredPairs rows).map Prod.fst) := by
  have he : rows.isEmpty = false := by
    cases rows with
    | nil => exact absurd rfl h
    | cons a l => rfl
  unfold resync_all_user_schedules
  simp only [get_all_user_data, he, Bool.false_eq_true, if_false]
  rw [foldl_processUser]
  simp

/-- `lastAssoc` on a cons, written with `Option.or`. -/
theorem lastAssoc_cons (p : String × JobSpec) (ps : List (String × JobSpec)) (k : String) :
    lastAssoc (p :: ps) k =
      (lastAssoc ps k).or (if p.1 = k then some p.2 else none) := by
  cases h : lastAssoc ps k with
  | none => simp [lastAssoc, h, Option.or]
  | some v => simp [lastAssoc, h, Option.or]

/-- Lookup after replaying an upsert sequence: the last binding of the key
wins, falling back to the original store. -/
theorem lookupJob_upsertList (ps : List (String × JobSpec)) (jobs : Jobs) (k : String) :
    lookupJob (upsertList ps jobs) k = (lastAssoc ps k).or (lookupJob jobs k) := by
  induction ps generalizing jobs with
  | nil => simp [upsertList, lastAssoc]
  | cons p ps ih =>
    rw [show upsertList (p :: ps) jobs = upsertList ps (addJobReplace jobs p.1 p.2) from rfl]
    rw [ih, lookupJob_addJobReplace, lastAssoc_cons, Option.or_assoc]
    congr 1
    by_cases h : k = p.1
    · simp [h]
    · have h' : ¬ p.1 = k := fun he => h he.symm
      simp [h, h']

/-- An upsert preserves distinctness of the installed job ids. -/
theorem nodup_keys_addJobReplace (jobs : Jobs) (id : String) (spec : JobSpec)
    (h : (jobs.map Prod.fst).Nodup) :
    ((addJobReplace jobs id spec).map Prod.fst).Nodup := by
  unfold addJobReplace
  rw [List.map_append, List.nodup_append]
  refine ⟨?_, by simp, ?_⟩
  · exact List.Nodup.sublist ((List.filter_sublist jobs).map Prod.fst) h
  · intro a ha hmem
    simp only [List.map_cons, List.map_nil, List.mem_singleton] at hmem
    subst hmem
    simp only [List.mem_map] at ha
    obtain ⟨x, hx, hxa⟩ := ha
    have hp := List.of_mem_filter hx
    rw [hxa] at hp
    simp at hp

/-- Replaying an upsert sequence preserves distinctness of the job ids. -/
theorem nodup_keys_upsertList (ps : List (String × JobSpec)) (jobs : Jobs)
    (h : (jobs.map Prod.fst).Nodup) :
    ((upsertList ps jobs).map Prod.fst).Nodup := by
  induction ps generalizing jobs with
  | nil => exact h
  | cons p ps ih => exact ih _ (nodup_keys_addJobReplace _ _ _ h)

/-- Filtering the store preserves distinctness of the job ids. -/
theorem nodup_keys_filter (jobs : Jobs) (q : (String × JobSpec) → Bool)
    (h : (jobs.map Prod.fst).Nodup) :
    ((jobs.filter q).map Prod.fst).Nodup :=
  List.Nodup.sublist ((List.filter_sublist jobs).map Prod.fst) h

/-- A reconciliation pass preserves distinctness of the installed job ids. -/
theorem nodup_keys_resync (scan : ScanResult) (jobs : Jobs)
    (h : (jobs.map Prod.fst).Nodup) :
    ((resync_all_user_schedules scan jobs).map Prod.fst).Nodup := by
  cases scan with
  | dbError => simpa [resync_all_user_schedules, get_all_user_data] using h
  | ok rows =>
    cases hr : rows with
    | nil => simpa [resync_all_user_schedules, get_all_user_data] using h
    | cons r rs =>
      rw [resync_eq _ _ (by simp)]
      unfold removeStaleJobs
      exact nodup_keys_filter _ _ (nodup_keys_upsertList _ _ h)

/-- UInt32 order in terms of the underlying natural number. -/
theorem uint32_le_iff_toNat_le (a b : UInt32) : (a ≤ b) ↔ a.toNat ≤ b.toNat := by
  rw [UInt32.le_def, BitVec.le_def]
  rfl

/-- Uppercasing an alphabetic character yields an uppercase letter (and a
non-alphabetic character never becomes one). -/
theorem isUpper_toUpper (c : Char) : (Char.toUpper c).isUpper = c.isAlpha := by
  unfold Char.toUpper
  by_cases h : c.toNat ≥ 97 ∧ c.toNat ≤ 122
  · rw [if_pos h]
    have hv : (c.toNat - 32).isValidChar := by left; omega
    have ht : (Char.ofNat (c.toNat - 32)).toNat = c.toNat - 32 := by
      rw [Char.ofNat, dif_pos hv]
      simp [Char.ofNatAux, Char.toNat, UInt32.toNat, BitVec.toNat_ofNatLt]
    have h1 : (Char.ofNat (c.toNat - 32)).val ≥ 65 := by
      rw [ge_iff_le, uint32_le_iff_toNat_le, show ((65 : UInt32)).toNat = 65 from rfl,
          show ((Char.ofNat (c.toNat - 32)).val).toNat = (Char.ofNat (c.toNat - 32)).toNat from rfl,
          ht]
      omega
    have h2 : (Char.ofNat (c.toNat - 32)).val ≤ 90 := by
      rw [uint32_le_iff_toNat_le, show ((90 : UInt32)).toNat = 90 from rfl,
          show ((Char.ofNat (c.toNat - 32)).val).toNat = (Char.ofNat (c.toNat - 32)).toNat from rfl,
          ht]
      omega
    have hu : (Char.ofNat (c.toNat - 32)).isUpper = true := by
      unfold Char.isUpper
      simp [h1, h2]
    have ha : c.isAlpha = true := by
      unfold Char.isAlpha Char.isLower
      have h3 : c.val ≥ 97 := by
        rw [ge_iff_le, uint32_le_iff_toNat_le, show ((97 : UInt32)).toNat = 97 from rfl]
        exact h.1
      have h4 : c.val ≤ 122 := by
        rw [uint32_le_iff_toNat_le, show ((122 : UInt32)).toNat = 122 from rfl]
        exact h.2
      simp [h3, h4]
    rw [hu, ha]
  · rw [if_neg h]
    have hl : c.isLower = false := by
      unfold Char.isLower
      rcases not_and_or.mp h with h1 | h1
      · have h2 : ¬ (c.val ≥ 97) := by
          rw [ge_iff_le, uint32_le_iff_toNat_le, show ((97 : UInt32)).toNat = 97 from rfl]
          have he : c.val.toNat = c.toNat := rfl
          omega
        simp [h2]
      · have h2 : ¬ (c.val ≤ 122) := by
          rw [uint32_le_iff_toNat_le, show ((122 : UInt32)).toNat = 122 from rfl]
          have he : c.val.toNat = c.toNat := rfl
          omega
        simp [h2]
    unfold Char.isAlpha
    rw [hl]
    simp

/-- Uppercasing preserves alphabetic-ness of a character. -/
theorem isAlpha_toUpper (c : Char) : (Char.toUpper c).isAlpha = c.isAlpha := by
  by_cases h : c.isAlpha
  · unfold Char.isAlpha
    rw [show Char.isUpper (Char.toUpper c) = true from (isUpper_toUpper c).trans h]
    unfold Char.isAlpha at h
    simpa using h
  · have hb : c.isAlpha = false := by simpa using h
    have hl : c.isLower = false := by
      unfold Char.isAlpha at hb
      exact (Bool.or_eq_false_iff.mp hb).2
    have heq : Char.toUpper c = c := by
      unfold Char.toUpper
      rw [if_neg]
      intro hcond
      have h3 : c.val ≥ 97 := by
        rw [ge_iff_le, uint32_le_iff_toNat_le, show ((97 : UInt32)).toNat = 97 from rfl]
        exact hcond.1
      have h4 : c.val ≤ 122 := by
        rw [uint32_le_iff_toNat_le, show ((122 : UInt32)).toNat = 122 from rfl]
        exact hcond.2
      unfold Char.isLower at hl
      simp [h3, h4] at hl
    rw [heq]

/-- Python `str.upper()` preserves `str.isalpha()` (ASCII model). -/
theorem pyIsalpha_pyUpper (s : List Char) : pyIsalpha (pyUpper s) = pyIsalpha s := by
  unfold pyIsalpha pyUpper
  cases s with
  | nil => rfl
  | cons c cs =>
    simp only [List.isEmpty_cons, List.map_cons, List.all_cons, Bool.not_false, Bool.true_and]
    rw [List.all_map]
    have : (Char.isAlpha ∘ Char.toUpper) = Char.isAlpha := by
      funext x
      exact isAlpha_toUpper x
    rw [this, isAlpha_toUpper]

/-- A string with a nonempty prefix is nonempty. -/
theorem append_ne_empty_left (a b : String) (h : a ≠ "") : a ++ b ≠ "" := by
  intro he
  apply h
  have hlen : a.length + b.length = 0 := by
    rw [← String.length_append, he]
    rfl
  have ha : a.length = 0 := by omega
  cases a with
  | mk data =>
    cases data with
    | nil => rfl
    | cons c cs => simp [String.length] at ha

/-- A join whose first element is nonempty is nonempty. -/
theorem joinSep_ne_empty (sep x : String) (xs : List String) (h : x ≠ "") :
    joinSep sep (x :: xs) ≠ "" := by
  cases xs with
  | nil => simpa [joinSep] using h
  | cons y ys =>
    simp only [joinSep]
    exact append_ne_empty_left _ _ (append_ne_empty_left _ _ h)

/-! ## Claim theorems -/

/-- C4: if the registry scan fails with a storage error, the error is caught
inside `get_all_user_data` (non-fatal, empty row list) and the reconciliation
pass returns early, leaving the live job set entirely unchanged: no job is
added, replaced or removed. -/
theorem scan_error_aborts_pass_unchanged_c4 :
    get_all_user_data ScanResult.dbError = [] ∧
    ∀ jobs : Jobs, resync_all_user_schedules ScanResult.dbError jobs = jobs := by
  refine ⟨rfl, fun jobs => ?_⟩
  simp [resync_all_user_schedules, get_all_user_data]

/-- C10: when the scan yields no rows — both for a genuinely empty table and
for a caught storage error — `resync_all_user_schedules` returns early without
adding, replacing or removing any job, so every previously installed job
(including stale jobs of deleted users) survives the pass. -/
theorem empty_scan_keeps_all_jobs_c10 :
    (∀ jobs : Jobs, resync_all_user_schedules (ScanResult.ok []) jobs = jobs) ∧
    (∀ jobs : Jobs, resync_all_user_schedules ScanResult.dbError jobs = jobs) ∧
    get_all_user_data ScanResult.dbError = get_all_user_data (ScanResult.ok []) := by
  refine ⟨fun jobs => ?_, fun jobs => ?_, rfl⟩
  · simp [resync_all_user_schedules, get_all_user_data]
  · simp [resync_all_user_schedules, get_all_user_data]

/-- C3: a user record in which the home station or the office station is
absent (or empty) derives no jobs: the scan-loop body leaves the pass state
untouched for that user, whatever the slot times are. -/
theorem missing_station_derives_nothing_c3 (st : PassState) (uid : Nat) (u : UserData)
    (h : pyTruthy u.home_crs = false ∨ pyTruthy u.office_crs = false) :
    processUser st (uid, RawRecord.record u) = st ∧
    userPairs (uid, RawRecord.record u) = [] := by
  have hc : (pyTruthy u.home_crs && pyTruthy u.office_crs) = false := by
    rcases h with h | h <;> simp [h]
  constructor
  · unfold processUser
    simp [hc]
  · unfold userPairs
    simp [hc]

theorem missing_station_derives_nothing_c3_witness :
    (pyTruthy ((⟨none, some "EUS", some "08:30 AM", some "05:30 PM"⟩ : UserData)).home_crs = false ∨
      pyTruthy ((⟨none, some "EUS", some "08:30 AM", some "05:30 PM"⟩ : UserData)).office_crs = false) ∧
    (processUser ⟨[], []⟩ (7, RawRecord.record ⟨none, some "EUS", some "08:30 AM", some "05:30 PM"⟩) =
        ⟨[], []⟩ ∧
      userPairs (7, RawRecord.record ⟨none, some "EUS", some "08:30 AM", some "05:30 PM"⟩) = []) :=
  ⟨Or.inl (by decide),
   missing_station_derives_nothing_c3 ⟨[], []⟩ 7
     ⟨none, some "EUS", some "08:30 AM", some "05:30 PM"⟩ (Or.inl (by decide))⟩

/-- C1 (evaluation of the code at the failing input): user 1 clears their
slot while user 2 keeps one.  After the next pass user 1 derives no triggers,
yet both of user 1's old jobs are still installed — the stale-removal loop
only inspects ids prefixed by the last-scanned user id (2) — while user 2's
keys are untouched.  This contradicts the claimed invariant that the live key
set equals the derived key set after every pass. -/
theorem stale_removal_scoped_to_last_user_c1 :
    (let pass1 := resync_all_user_schedules
        (ScanResult.ok [(1, RawRecord.record ⟨some "KGX", some "EUS", some "08:30 AM", none⟩),
                        (2, RawRecord.record ⟨some "AAA", some "BBB", some "09:00 AM", none⟩)]) []
     let pass2 := resync_all_user_schedules
        (ScanResult.ok [(1, RawRecord.record ⟨some "KGX", some "EUS", none, none⟩),
                        (2, RawRecord.record ⟨some "AAA", some "BBB", some "09:00 AM", none⟩)]) pass1
     userPairs (1, RawRecord.record ⟨some "KGX", some "EUS", none, none⟩) = [] ∧
     lookupJob pass2 (jobId 1 "to_slot" 1) = some ⟨"mon-fri", 8, 30, 1, "KGX", "EUS"⟩ ∧
     lookupJob pass2 (jobId 1 "to_slot" 2) = some ⟨"mon-fri", 9, 0, 1, "KGX", "EUS"⟩ ∧
     lookupJob pass2 (jobId 2 "to_slot" 1) = some ⟨"mon-fri", 9, 0, 2, "AAA", "BBB"⟩ ∧
     lookupJob pass2 (jobId 2 "to_slot" 2) = some ⟨"mon-fri", 9, 30, 2, "AAA", "BBB"⟩) := by
  decide

/-- C7 counterexample: with the bot token configured and the National Rail
API token absent, `main` does not refuse to start the scheduling subsystem —
it reaches `scheduler.start()`, merely logging the missing token. -/
theorem startup_missing_nr_token_starts_c7 :
    mainStartup (some "123:ABC") none = StartupResult.started true := by
  decide

/-- C7 (amended): a missing (or empty) bot token makes `main` return before
creating the scheduler, reporting the missing credential; with a truthy bot
token the scheduler is started even when the National Rail API token is
absent, which is only logged as an error. -/
theorem startup_refusal_c7 :
    (∀ (bt nr : Option String), pyTruthy bt = false →
      mainStartup bt nr =
        StartupResult.refused "TELEGRAM_BOT_TOKEN not found in environment variables. Exiting.") ∧
    (∀ (bt nr : Option String), pyTruthy bt = true →
      mainStartup bt nr = StartupResult.started (!(pyTruthy nr))) := by
  constructor
  · intro bt nr h
    unfold mainStartup
    simp [h]
  · intro bt nr h
    unfold mainStartup
    simp [h]

theorem startup_refusal_c7_witness :
    (pyTruthy (none : Option String) = false ∧
      mainStartup none (some "R") =
        StartupResult.refused "TELEGRAM_BOT_TOKEN not found in environment variables. Exiting.") ∧
    (pyTruthy (some "123:ABC") = true ∧
      mainStartup (some "123:ABC") (some "R") = StartupResult.started (!(pyTruthy (some "R")))) :=
  ⟨⟨by decide, startup_refusal_c7.1 none (some "R") (by decide)⟩,
   ⟨by decide, startup_refusal_c7.2 (some "123:ABC") (some "R") (by decide)⟩⟩

/-- C2: with both stations set and a parseable slot time, the pass installs
exactly two jobs for that slot — the primary at the slot's hour and minute
and a secondary exactly thirty minutes later (wrapping at the day boundary,
e.g. 23:45 to 00:15), both on `mon-fri`, both carrying the slot's direction
(`to_slot`: home to office, `from_slot`: office to home).  The concrete
`{home: KGX, office: EUS, toSlot: "08:30 AM"}` registry yields exactly the
08:30 and 09:00 weekday jobs with origin KGX and destination EUS and no
`from_slot` keys. -/
theorem derive_two_jobs_per_slot_c2 :
    (∀ (st : PassState) (uid : Nat) (home office ts : String) (t : TimeOfDay),
      home ≠ "" → office ≠ "" → ts ≠ "" → parseTime12 ts = some t →
      processUser st (uid, RawRecord.record ⟨some home, some office, some ts, none⟩) =
        ⟨addJobReplace
           (addJobReplace st.jobs (jobId uid "to_slot" 1)
             ⟨"mon-fri", t.hour, t.minute, uid, home, office⟩)
           (jobId uid "to_slot" 2)
           ⟨"mon-fri", (plusThirtyMinutes t).hour, (plusThirtyMinutes t).minute, uid, home, office⟩,
         st.current_job_ids ++ [jobId uid "to_slot" 1, jobId uid "to_slot" 2]⟩) ∧
    (∀ (st : PassState) (uid : Nat) (home office fs : String) (t : TimeOfDay),
      home ≠ "" → office ≠ "" → fs ≠ "" → parseTime12 fs = some t →
      processUser st (uid, RawRecord.record ⟨some home, some office, none, some fs⟩) =
        ⟨addJobReplace
           (addJobReplace st.jobs (jobId uid "from_slot" 1)
             ⟨"mon-fri", t.hour, t.minute, uid, office, home⟩)
           (jobId uid "from_slot" 2)
           ⟨"mon-fri", (plusThirtyMinutes t).hour, (plusThirtyMinutes t).minute, uid, office, home⟩,
         st.current_job_ids ++ [jobId uid "from_slot" 1, jobId uid "from_slot" 2]⟩) ∧
    (plusThirtyMinutes ⟨23, 45⟩ = ⟨0, 15⟩ ∧ parseTime12 "11:45 PM" = some ⟨23, 45⟩) ∧
    resync_all_user_schedules
        (ScanResult.ok [(42, RawRecord.record ⟨some "KGX", some "EUS", some "08:30 AM", none⟩)]) [] =
      [(jobId 42 "to_slot" 1, ⟨"mon-fri", 8, 30, 42, "KGX", "EUS"⟩),
       (jobId 42 "to_slot" 2, ⟨"mon-fri", 9, 0, 42, "KGX", "EUS"⟩)] := by
  refine ⟨?_, ?_, ⟨by decide, by decide⟩, by decide⟩
  · intro st uid home office ts t hh ho hts hp
    have h1 : pyTruthy (some home) = true := by simp [pyTruthy, hh]
    have h2 : pyTruthy (some office) = true := by simp [pyTruthy, ho]
    have h3 : pyTruthy (some ts) = true := by simp [pyTruthy, hts]
    unfold processUser
    simp only [h1, h2, Bool.and_self, if_true]
    unfold processSlot
    simp [h3, hp, pyTruthy, hts, List.append_assoc]
  · intro st uid home office fs t hh ho hfs hp
    have h1 : pyTruthy (some home) = true := by simp [pyTruthy, hh]
    have h2 : pyTruthy (some office) = true := by simp [pyTruthy, ho]
    have h3 : pyTruthy (some fs) = true := by simp [pyTruthy, hfs]
    unfold processUser
    simp only [h1, h2, Bool.and_self, if_true]
    unfold processSlot
    simp [h3, hp, pyTruthy, hfs, List.append_assoc]

theorem derive_two_jobs_per_slot_c2_witness :
    ("KGX" ≠ "" ∧ "EUS" ≠ "" ∧ "08:30 AM" ≠ "" ∧ parseTime12 "08:30 AM" = some ⟨8, 30⟩) ∧
    processUser ⟨[], []⟩ (42, RawRecord.record ⟨some "KGX", some "EUS", some "08:30 AM", none⟩) =
      ⟨addJobReplace
         (addJobReplace [] (jobId 42 "to_slot" 1) ⟨"mon-fri", 8, 30, 42, "KGX", "EUS"⟩)
         (jobId 42 "to_slot" 2)
         ⟨"mon-fri", (plusThirtyMinutes ⟨8, 30⟩).hour, (plusThirtyMinutes ⟨8, 30⟩).minute,
          42, "KGX", "EUS"⟩,
       [] ++ [jobId 42 "to_slot" 1, jobId 42 "to_slot" 2]⟩ :=
  ⟨⟨by decide, by decide, by decide, by decide⟩,
   derive_two_jobs_per_slot_c2.1 ⟨[], []⟩ 42 "KGX" "EUS" "08:30 AM" ⟨8, 30⟩
     (by decide) (by decide) (by decide) (by decide)⟩

/-- C5: whatever the lookup outcome — success (with or without services),
HTTP error (401 or other), connection failure, unexpected exception, or a
missing API token — the fired dispatch delivers a non-empty message: every
failure is converted into a descriptive error text rather than no message. -/
theorem dispatch_always_delivers_c5 :
    (∀ (token : Option String) (ua origin dest : String) (outcome : LookupOutcome),
      send_schedule_notification token ua origin dest outcome ≠ "") ∧
    (∀ (tk ua origin dest : String) (outcome : LookupOutcome),
      fetch_train_schedule tk ua origin dest outcome ≠ "") := by
  have hfetch : ∀ (tk ua origin dest : String) (outcome : LookupOutcome),
      fetch_train_schedule tk ua origin dest outcome ≠ "" := by
    intro tk ua origin dest outcome
    by_cases htk : tk = ""
    · rw [htk]
      exact (by decide : ("National Rail API token is missing." : String) ≠ "")
    · cases outcome with
      | success body =>
        by_cases hb : (body.getD []).isEmpty
        · simp only [fetch_train_schedule, if_neg htk, hb, if_true]
          exact append_ne_empty_left _ " at this time."
            (append_ne_empty_left _ dest
              (append_ne_empty_left _ " to "
                (append_ne_empty_left "No direct services found from " origin (by decide))))
        · simp only [fetch_train_schedule, if_neg htk, hb, Bool.false_eq_true, if_false]
          exact joinSep_ne_empty "\n" _ _
            (append_ne_empty_left _ ":\n"
              (append_ne_empty_left _ dest
                (append_ne_empty_left _ " to "
                  (append_ne_empty_left "Trains from " origin (by decide)))))
      | httpError code =>
        by_cases hc : code = 401
        · simp only [fetch_train_schedule, if_neg htk, hc, if_true]
          decide
        · simp only [fetch_train_schedule, if_neg htk, if_neg hc]
          exact append_ne_empty_left _ ")."
            (append_ne_empty_left "Sorry, there was a problem reaching the schedule service (HTTP "
              (toString code) (by decide))
      | requestError =>
        simp only [fetch_train_schedule, if_neg htk]
        decide
      | otherError =>
        simp only [fetch_train_schedule, if_neg htk]
        decide
  constructor
  · intro token ua origin dest outcome
    unfold send_schedule_notification
    by_cases ht : pyTruthy token
    · simp only [ht, Bool.not_true, Bool.false_eq_true, if_false]
      exact hfetch _ _ _ _ _
    · have ht' : pyTruthy token = false := by simpa using ht
      simp only [ht', Bool.not_false, if_true]
      decide
  · exact hfetch

/-- C6: a user whose record fails to parse — malformed JSON or a malformed
time-of-day string — contributes nothing to the pass state, and processing of
every other row is unaffected: the scan-loop fold over rows containing the
offending row equals the fold with that row dropped, so every other user's
derived jobs are still installed. -/
theorem parse_error_skips_only_that_user_c6 :
    (∀ (st : PassState) (uid : Nat), processUser st (uid, RawRecord.malformed) = st) ∧
    (∀ (st : PassState) (uid : Nat) (home office ts : String) (fs : Option String),
      home ≠ "" → office ≠ "" → ts ≠ "" → parseTime12 ts = none →
      processUser st (uid, RawRecord.record ⟨some home, some office, some ts, fs⟩) = st) ∧
    (∀ (pre post : List (Nat × RawRecord)) (row : Nat × RawRecord) (st : PassState),
      (∀ s : PassState, processUser s row = s) →
      (pre ++ row :: post).foldl processUser st = (pre ++ post).foldl processUser st) := by
  refine ⟨fun st uid => rfl, ?_, ?_⟩
  · intro st uid home office ts fs hh ho hts hp
    have h1 : pyTruthy (some home) = true := by simp [pyTruthy, hh]
    have h2 : pyTruthy (some office) = true := by simp [pyTruthy, ho]
    unfold processUser
    simp only [h1, h2, Bool.and_self, if_true]
    unfold processSlot
    simp [pyTruthy, hts, hp]
  · intro pre post row st hrow
    rw [List.foldl_append, List.foldl_append, List.foldl_cons, hrow]

theorem parse_error_skips_only_that_user_c6_witness :
    ("KGX" ≠ "" ∧ "EUS" ≠ "" ∧ "half past eight" ≠ "" ∧ parseTime12 "half past eight" = none) ∧
    processUser ⟨[], []⟩
        (5, RawRecord.record ⟨some "KGX", some "EUS", some "half past eight", none⟩) = ⟨[], []⟩ ∧
    ([(1, RawRecord.record ⟨some "AAA", some "BBB", some "09:00 AM", none⟩)] ++
        (5, RawRecord.malformed) :: []).foldl processUser ⟨[], []⟩ =
      ([(1, RawRecord.record ⟨some "AAA", some "BBB", some "09:00 AM", none⟩)] ++ []).foldl
        processUser ⟨[], []⟩ :=
  ⟨⟨by decide, by decide, by decide, by decide⟩,
   parse_error_skips_only_that_user_c6.2.1 ⟨[], []⟩ 5 "KGX" "EUS" "half past eight" none
     (by decide) (by decide) (by decide) (by decide),
   parse_error_skips_only_that_user_c6.2.2
     [(1, RawRecord.record ⟨some "AAA", some "BBB", some "09:00 AM", none⟩)] []
     (5, RawRecord.malformed) ⟨[], []⟩
     (fun s => parse_error_skips_only_that_user_c6.1 s 5)⟩

/-- C8: reconciliation is idempotent on the job store viewed as a map from
job id to job: after a second pass over the same rows, every id is bound to
exactly the same job (and fire time) as after a single pass — each upsert
replaces rather than duplicates — and a pass never introduces a duplicate id
when the store's ids were distinct. -/
theorem resync_idempotent_c8 :
    (∀ (scan : ScanResult) (jobs : Jobs) (k : String),
      lookupJob (resync_all_user_schedules scan (resync_all_user_schedules scan jobs)) k =
        lookupJob (resync_all_user_schedules scan jobs) k) ∧
    (∀ (scan : ScanResult) (jobs : Jobs),
      (jobs.map Prod.fst).Nodup →
      ((resync_all_user_schedules scan jobs).map Prod.fst).Nodup) := by
  constructor
  · intro scan jobs k
    cases scan with
    | dbError => simp [resync_all_user_schedules, get_all_user_data]
    | ok rows =>
      cases rows with
      | nil => simp [resync_all_user_schedules, get_all_user_data]
      | cons r rs =>
        have hne : (r :: rs) ≠ [] := by simp
        have e1 := resync_eq (r :: rs) jobs hne
        have e2 := resync_eq (r :: rs) (resync_all_user_schedules (ScanResult.ok (r :: rs)) jobs) hne
        rw [e1] at e2
        rw [e1, e2]
        unfold removeStaleJobs
        rw [lookupJob_filterKey, lookupJob_filterKey, lookupJob_upsertList, lookupJob_upsertList]
        by_cases hq : staleKeep (((r :: rs).getLast?.map Prod.fst).getD 0)
            (List.map Prod.fst (desiredPairs (r :: rs))) k
        · rw [if_pos hq, if_pos hq, lookupJob_filterKey, if_pos hq, lookupJob_upsertList]
          cases lastAssoc (desiredPairs (r :: rs)) k <;> simp [Option.or]
        · rw [if_neg hq, if_neg hq]
  · intro scan jobs h
    exact nodup_keys_resync scan jobs h

theorem resync_idempotent_c8_witness :
    (([] : Jobs).map Prod.fst).Nodup ∧
    ((resync_all_user_schedules
        (ScanResult.ok [(42, RawRecord.record ⟨some "KGX", some "EUS", some "08:30 AM", none⟩)])
        []).map Prod.fst).Nodup :=
  ⟨by decide,
   resync_idempotent_c8.2
     (ScanResult.ok [(42, RawRecord.record ⟨some "KGX", some "EUS", some "08:30 AM", none⟩)])
     [] (by decide)⟩

/-- C9: `set_home` and `set_office` validate before writing: with no argument,
or an argument that is not exactly three alphabetic characters, they reply
with the usage text and leave the stored value unchanged; a valid argument
stores its uppercased form, which consists of exactly three uppercase
letters. -/
theorem station_commands_validate_c9 :
    (∀ stored, set_home [] stored = ("Usage: /set_home <3_LETTER_CRS_CODE>", stored)) ∧
    (∀ stored, set_office [] stored = ("Usage: /set_office <3_LETTER_CRS_CODE>", stored)) ∧
    (∀ (a : List Char) (rest : List (List Char)) (stored : Option (List Char)),
      a.length ≠ 3 ∨ pyIsalpha a = false →
      set_home (a :: rest) stored = ("Usage: /set_home <3_LETTER_CRS_CODE>", stored) ∧
      set_office (a :: rest) stored = ("Usage: /set_office <3_LETTER_CRS_CODE>", stored)) ∧
    (∀ (a : List Char) (rest : List (List Char)) (stored : Option (List Char)),
      a.length = 3 → pyIsalpha a = true →
      (set_home (a :: rest) stored).2 = some (pyUpper a) ∧
      (set_office (a :: rest) stored).2 = some (pyUpper a) ∧
      (pyUpper a).length = 3 ∧ ∀ c ∈ pyUpper a, c.isUpper = true) := by
  refine ⟨fun stored => rfl, fun stored => rfl, ?_, ?_⟩
  · intro a rest stored hbad
    have hlen : (pyUpper a).length = a.length := List.length_map a Char.toUpper
    have hcond : ((pyUpper a).length != 3 || !(pyIsalpha (pyUpper a))) = true := by
      rcases hbad with hb | hb
      · simp [hlen, hb]
      · rw [pyIsalpha_pyUpper, hb]
        simp
    constructor
    · unfold set_home
      simp only [hcond, if_true]
    · unfold set_office
      simp only [hcond, if_true]
  · intro a rest stored h3 halpha
    have hlen : (pyUpper a).length = a.length := List.length_map a Char.toUpper
    have hcond : ((pyUpper a).length != 3 || !(pyIsalpha (pyUpper a))) = false := by
      rw [pyIsalpha_pyUpper, halpha, hlen, h3]
      simp
    refine ⟨?_, ?_, by rw [hlen, h3], ?_⟩
    · unfold set_home
      simp only [hcond, Bool.false_eq_true, if_false]
    · unfold set_office
      simp only [hcond, Bool.false_eq_true, if_false]
    · intro c hc
      simp only [pyUpper, List.mem_map] at hc
      obtain ⟨c0, hc0, hce⟩ := hc
      have hal : c0.isAlpha = true := by
        unfold pyIsalpha at halpha
        have hall := (Bool.and_eq_true _ _).mp halpha |>.2
        exact List.all_eq_true.mp hall c0 hc0
      rw [← hce, isUpper_toUpper]
      exact hal

theorem station_commands_validate_c9_witness :
    (['k', 'g', 'x'].length = 3 ∧ pyIsalpha ['k', 'g', 'x'] = true) ∧
    ((set_home [['k', 'g', 'x']] none).2 = some (pyUpper ['k', 'g', 'x']) ∧
     (set_office [['k', 'g', 'x']] none).2 = some (pyUpper ['k', 'g', 'x']) ∧
     (pyUpper ['k', 'g', 'x']).length = 3 ∧
     ∀ c ∈ pyUpper ['k', 'g', 'x'], c.isUpper = true) :=
  ⟨⟨by decide, by decide⟩,
   station_commands_validate_c9.2.2.2 ['k', 'g', 'x'] [] none (by decide) (by decide)⟩
